import Mathlib

/-!
Shallow embedding of the invocation core of the `sdk-python` repository:

* `src/src/restate/vm.py` — the `VMWrapper` class around the external engine
  (`restate_sdk_python_core.PyVM`); here we embed the result-classification
  method `take_async_result`.
* `src/python/restate/handler.py` — handler registration (`make_handler`,
  `extract_io_type_hints`, `handler_from_callable`) and invocation
  (`invoke_handler`).

Python conventions used throughout the embedding:

* `bytes` values are `List Nat` (each entry one byte; byte-range bounds are
  irrelevant to every property proved here).
* A raised exception is an `Except.error` carrying a `PyExc` value; Python
  functions that can raise are embedded as `Except PyExc`-valued functions.
* Python truthiness (`if not result:`) is embedded per shape: `None` is falsy,
  a `bytes` value is falsy exactly when empty, plain objects are truthy, and
  an object of unknown shape carries its own truthiness.
* Object attributes mutated in place (`handler_io`, `vars(wrapped)[...]`) are
  embedded by explicit value passing: the mutated `HandlerIO` is returned, and
  the per-function attribute table `vars(...)` becomes an explicit store from
  function identity to the attached handler.
-/

namespace RestateSDK

/-! ### vm.py: engine results and `take_async_result` -/

/-- The shapes the external engine call `self.vm.take_async_result(handle)` can
hand back to `VMWrapper.take_async_result` (vm.py line 92): Python `None`,
a `PyVoid`, a `bytes` value, a `PyFailure` (with its inner code/message),
a `PySuspended`, or a value of a shape the wrapper does not know.  An unknown
shape carries its own Python truthiness and the text `str(result)` would
render, which is all the wrapper ever reads of it. -/
inductive PyVMResult where
  | pyNone : PyVMResult
  | pyVoid : PyVMResult
  | pyBytes (b : List Nat) : PyVMResult
  | pyFailure (code : Int) (message : String) : PyVMResult
  | pySuspended : PyVMResult
  | pyUnknown (falsy : Bool) (shownText : String) : PyVMResult
deriving DecidableEq

/-- Python truthiness of an engine result, as `if not result:` reads it:
`None` is falsy, `bytes` is falsy iff empty (its `__len__` is 0), the plain
data-carrier objects `PyVoid`/`PyFailure`/`PySuspended` are truthy (they define
neither `__bool__` nor `__len__`), and an unknown object brings its own. -/
def pyTruthy : PyVMResult → Bool
  | PyVMResult.pyNone => false
  | PyVMResult.pyBytes b => !b.isEmpty
  | PyVMResult.pyUnknown falsy _ => !falsy
  | _ => true

/-- The values `VMWrapper.take_async_result` can return, i.e. the Python type
`AsyncResultType = Optional[Union[bytes, Failure, NotReady]]` (vm.py line 45):
the `NOT_READY` sentinel, Python `None` (success with an empty value), a
`bytes` value (success with a value), or a `Failure` dataclass. -/
inductive AsyncResult where
  | notReady : AsyncResult
  | emptySuccess : AsyncResult
  | bytesSuccess (b : List Nat) : AsyncResult
  | failure (code : Int) (message : String) : AsyncResult
deriving DecidableEq

/-- The exceptions the embedded code can raise: the `SUSPENDED` singleton of
`SuspendedException` (vm.py line 43), a `ValueError` with its message, the
SDK's `TerminalError` with its message, an `IndexError`, or any other
exception a user function might raise (identified by an arbitrary tag). -/
inductive PyExc where
  | suspendedException : PyExc
  | valueError (message : String) : PyExc
  | terminalError (message : String) : PyExc
  | indexError (message : String) : PyExc
  | otherExc (tag : String) : PyExc
deriving DecidableEq

/-- `VMWrapper.take_async_result` (vm.py lines 90-109), applied to the value
the engine handed back.  Order mirrors the source: the truthiness test first
(`if not result: return NOT_READY`), then the `isinstance` ladder for
`PyVoid`, `bytes`, `PyFailure`, `PySuspended`, and finally
`raise ValueError(f"Unknown result type: {result}")`.  A raised exception is
the `Except.error` case. -/
def take_async_result (result : PyVMResult) : Except PyExc AsyncResult :=
  if !pyTruthy result then Except.ok AsyncResult.notReady
  else
    match result with
    | PyVMResult.pyVoid => Except.ok AsyncResult.emptySuccess
    | PyVMResult.pyBytes b => Except.ok (AsyncResult.bytesSuccess b)
    | PyVMResult.pyFailure code message => Except.ok (AsyncResult.failure code message)
    | PyVMResult.pySuspended => Except.error PyExc.suspendedException
    | PyVMResult.pyUnknown _ shownText =>
        Except.error (PyExc.valueError ("Unknown result type: " ++ shownText))
    | PyVMResult.pyNone => Except.ok AsyncResult.notReady

/-! ### handler.py: data model -/

/-- A Python type annotation as `handler.py` inspects one: the
`inspect`-module sentinel for a missing annotation, a class derived from
`restate.serde.PydanticBaseModel` (identified by its class name), or any
other annotation (a plain class such as `int`, or a non-class type
expression, for both of which `is_pydantic` answers `False`). -/
inductive PyAnnot where
  | emptySentinel : PyAnnot
  | pydanticModel (className : String) : PyAnnot
  | plainType (className : String) : PyAnnot
deriving DecidableEq

/-- `is_pydantic` (handler.py lines 64-72): `issubclass(annotation,
PydanticBaseModel)`, with the `TypeError` for a non-class annotation caught
and answered as `False`.  Only a class derived from `PydanticBaseModel`
answers `True`. -/
def is_pydantic : PyAnnot → Bool
  | PyAnnot.pydanticModel _ => true
  | _ => false

/-- The Python class of a serializer object, as far as the `isinstance`
tests of `handler.py` and the constructor calls of `extract_io_type_hints`
observe it: an instance of `GeneralSerde` (the default general-purpose
serializer), a `PydanticJsonSerde` built for a given model annotation, or
any other user-supplied `Serde` subclass (identified by a tag). -/
inductive SerdeClass where
  | generalSerde : SerdeClass
  | pydanticJson (model : PyAnnot) : SerdeClass
  | customSerde (tag : Nat) : SerdeClass
deriving DecidableEq

/-- The behaviour of a serializer: `deserialize(bytes)` (an `Except.error`
carries `str(e)` of the exception a failing call raises) and
`serialize(value)`. -/
structure SerdeImpl (α : Type) where
  deserialize : List Nat → Except String α
  serialize : α → List Nat

/-- A serializer object as `handler.py` sees one: its Python class together
with its behaviour. -/
structure Serde (α : Type) where
  cls : SerdeClass
  impl : SerdeImpl α

/-- Modelled from the spec: `PydanticJsonSerde(annotation)` is constructed in
`restate.serde`, a module not among the given sources.  The spec describes it
as the structured-schema serializer for the matched model annotation, so it is
embedded as a serializer whose class records that annotation and whose
byte-level behaviour comes from an external codec family (a parameter of the
development), one behaviour per model annotation. -/
def PydanticJsonSerde {α : Type} (codec : PyAnnot → SerdeImpl α)
    (ann : PyAnnot) : Serde α :=
  { cls := SerdeClass.pydanticJson ann, impl := codec ann }

/-- `TypeHint` (handler.py lines 40-46): the captured annotation (defaulting
to Python `None`) and the `is_pydantic` flag. -/
structure TypeHint where
  annotation : Option PyAnnot := none
  is_pydantic : Bool := false
deriving DecidableEq

/-- `HandlerIO` (handler.py lines 48-62): accept/content-type header values,
the input and output serializers, and the optional captured type hints. -/
structure HandlerIO (I O : Type) where
  accept : String
  content_type : String
  input_serde : Serde I
  output_serde : Serde O
  input_type : Option TypeHint := none
  output_type : Option TypeHint := none

/-- One entry of `inspect.Signature.parameters`: its name and annotation
(the sentinel when the parameter is unannotated). -/
structure PyParameter where
  name : String
  annotation : PyAnnot := PyAnnot.emptySentinel
deriving DecidableEq

/-- An `inspect.Signature` as `handler.py` reads one: the ordered declared
parameters and the return annotation (the sentinel when absent). -/
structure PySignature where
  parameters : List PyParameter
  return_annotation : PyAnnot := PyAnnot.emptySentinel
deriving DecidableEq

/-- `ServiceTag` (handler.py lines 32-38). -/
structure ServiceTag where
  kind : String
  name : String
deriving DecidableEq

/-- A Python function object as `handler.py` uses one: its object identity
(for the `vars(wrapped)` attribute table), its `__name__` (the empty string
embeds a falsy name), and its call behaviour.  Calling the function with
`(ctx, v)` passes `some v`, calling it with `(ctx)` alone passes `none`;
a raised exception is the `Except.error` case. -/
structure PyFunc (C I O : Type) where
  id : Nat
  py_name : String
  call : C → Option I → Except PyExc O

/-- `Handler` (handler.py lines 101-111): the immutable descriptor built by
`make_handler`. -/
structure Handler (C I O : Type) where
  service_tag : ServiceTag
  handler_io : HandlerIO I O
  kind : Option String
  name : String
  fn : PyFunc C I O
  arity : Nat

/-- The per-function attribute table `vars(fn)[RESTATE_UNIQUE_HANDLER_SYMBOL]`,
embedded as an explicit map from function identity to the attached handler
(the key is unique, so one slot per function suffices). -/
def HandlerStore (C I O : Type) : Type := Nat → Option (Handler C I O)

/-! ### handler.py: registration -/

/-- `extract_io_type_hints` (handler.py lines 75-99), with the in-place
mutation of `handler_io` embedded as a returned copy.  `codecIn`/`codecOut`
are the external `PydanticJsonSerde` codec families (see `PydanticJsonSerde`).
`list(signature.parameters.values())[-1]` on an empty parameter list raises
`IndexError`; `make_handler` only calls this under its arity guard. -/
def extract_io_type_hints {I O : Type} (codecIn : PyAnnot → SerdeImpl I)
    (codecOut : PyAnnot → SerdeImpl O)
    (handler_io : HandlerIO I O) (signature : PySignature) :
    Except PyExc ( HandlerIO I O) :=
  match signature.parameters.getLast? with
  | none => Except.error (PyExc.indexError "list index out of range")
  | some lastParam =>
    let annIn := lastParam.annotation
    let hio := { handler_io with
                   input_type := some { annotation := some annIn, is_pydantic := false } }
    let hio :=
      if is_pydantic annIn then
        let hio := { hio with
                       input_type := some { annotation := some annIn, is_pydantic := true } }
        if hio.input_serde.cls = SerdeClass.generalSerde then
          { hio with input_serde := PydanticJsonSerde codecIn annIn }
        else hio
      else hio
    let annOut := signature.return_annotation
    let hio := { hio with
                   output_type := some { annotation := some annOut, is_pydantic := false } }
    let hio :=
      if is_pydantic annOut then
        let hio := { hio with
                       output_type := some { annotation := some annOut, is_pydantic := true } }
        if hio.output_serde.cls = SerdeClass.generalSerde then
          { hio with output_serde := PydanticJsonSerde codecOut annOut }
        else hio
      else hio
    Except.ok hio

/-- The name-deduction prefix of `make_handler` (handler.py lines 131-134):
`handler_name = name; if not handler_name: handler_name = wrapped.__name__`.
`none` embeds Python `None` and the empty string is the falsy string, so the
explicit name is kept exactly when it is a non-empty string. -/
def resolve_handler_name (name : Option String) (wrapped_name : String) : String :=
  match name with
  | some s => if s = "" then wrapped_name else s
  | none => wrapped_name

/-- `make_handler` (handler.py lines 117-152), with the write to
`vars(wrapped)[RESTATE_UNIQUE_HANDLER_SYMBOL]` embedded as an update of the
explicit store.  The source order is kept: name resolution (the first two
statements, factored into `resolve_handler_name`) and its `ValueError`, the
zero-parameter `ValueError`, `arity = len(...)`, `extract_io_type_hints`,
then descriptor construction and attachment. -/
def make_handler {C I O : Type} (codecIn : PyAnnot → SerdeImpl I)
    (codecOut : PyAnnot → SerdeImpl O)
    (service_tag : ServiceTag) (handler_io : HandlerIO I O)
    (name : Option String) (kind : Option String)
    (wrapped : PyFunc C I O) (signature : PySignature)
    (store : HandlerStore C I O) :
    Except PyExc ( Handler C I O × HandlerStore C I O) :=
  if resolve_handler_name name wrapped.py_name = "" then
    Except.error (PyExc.valueError "Handler name must be provided")
  else if signature.parameters.length = 0 then
    Except.error (PyExc.valueError "Handler must have at least one parameter")
  else
    match extract_io_type_hints codecIn codecOut handler_io signature with
    | Except.error e => Except.error e
    | Except.ok hio =>
      let handler : Handler C I O :=
        { service_tag := service_tag, handler_io := hio, kind := kind,
          name := resolve_handler_name name wrapped.py_name, fn := wrapped,
          arity := signature.parameters.length }
      Except.ok (handler, fun i => if i = wrapped.id then some handler else store i)

/-- `handler_from_callable` (handler.py lines 154-161): the
`vars(wrapper)[RESTATE_UNIQUE_HANDLER_SYMBOL]` lookup, with the `KeyError`
turned into `ValueError("Handler not found")`. -/
def handler_from_callable {C I O : Type} (wrapper : PyFunc C I O)
    (store : HandlerStore C I O) : Except PyExc ( Handler C I O) :=
  match store wrapper.id with
  | some h => Except.ok h
  | none => Except.error (PyExc.valueError "Handler not found")

/-! ### handler.py: invocation -/

/-- `invoke_handler` (handler.py lines 163-176).  The `await` of the user
coroutine is embedded as a plain call; an exception the user function raises
is an `Except.error` and propagates (there is no handler around the call in
the source); only the `deserialize` call sits in a `try` that re-raises
`TerminalError(f"Unable to parse an input argument. {e}")`. -/
def invoke_handler {C I O : Type} (handler : Handler C I O) (ctx : C)
    (in_buffer : List Nat) : Except PyExc (List Nat) :=
  if handler.arity = 2 then
    match handler.handler_io.input_serde.impl.deserialize in_buffer with
    | Except.error e =>
        Except.error (PyExc.terminalError ("Unable to parse an input argument. " ++ e))
    | Except.ok in_arg =>
      match handler.fn.call ctx (some in_arg) with
      | Except.error e => Except.error e
      | Except.ok out_arg =>
          Except.ok (handler.handler_io.output_serde.impl.serialize out_arg)
  else
    match handler.fn.call ctx none with
    | Except.error e => Except.error e
    | Except.ok out_arg =>
        Except.ok (handler.handler_io.output_serde.impl.serialize out_arg)

/-! ### Concrete fixtures

A small concrete universe used by the witnesses: context type `Unit`, payload
and result type `Int`, a decimal-free one-byte integer codec standing in for a
concrete serializer behaviour, and a few function objects and signatures. -/

/-- A concrete serializer behaviour: a single-byte buffer `[n]` deserializes
to the integer `n`, anything else raises (with `str(e) = "invalid input"`);
an integer serializes to the one-byte buffer. -/
def intImpl : SerdeImpl Int where
  deserialize := fun b =>
    match b with
    | [n] => Except.ok ((n : Int))
    | _ => Except.error "invalid input"
  serialize := fun v => [v.toNat]

/-- A concrete external codec family for `PydanticJsonSerde`. -/
def intCodec : PyAnnot → SerdeImpl Int := fun _ => intImpl

/-- A concrete instance of the default general-purpose serializer class. -/
def generalIntSerde : Serde Int :=
  { cls := SerdeClass.generalSerde, impl := intImpl }

/-- A concrete user-supplied serializer of a non-default class. -/
def customIntSerde : Serde Int :=
  { cls := SerdeClass.customSerde 1, impl := intImpl }

def greeterTag : ServiceTag := { kind := "service", name := "greeter" }

/-- A `HandlerIO` as a user constructs one: both serializers still the
default general-purpose one, no type hints captured yet. -/
def hioIntDefault : HandlerIO Int Int :=
  { accept := "application/json", content_type := "application/json",
    input_serde := generalIntSerde, output_serde := generalIntSerde }

/-- A user function of arity 2 that doubles its payload; calling it without a
payload raises a `TypeError`. -/
def doubleFn : PyFunc Unit Int Int :=
  { id := 7, py_name := "double",
    call := fun _ arg =>
      match arg with
      | some v => Except.ok (2 * v)
      | none => Except.error (PyExc.otherExc "TypeError") }

/-- The descriptor of `doubleFn` as `invoke_handler` consumes it. -/
def doubleHandler : Handler Unit Int Int :=
  { service_tag := greeterTag, handler_io := hioIntDefault, kind := none,
    name := "double", fn := doubleFn, arity := 2 }

/-- A user function of arity 1 that returns 42 when called with the context
alone. -/
def answerFn : PyFunc Unit Int Int :=
  { id := 8, py_name := "answer",
    call := fun _ arg =>
      match arg with
      | none => Except.ok 42
      | some _ => Except.error (PyExc.otherExc "TypeError") }

/-- The descriptor of `answerFn` as `invoke_handler` consumes it. -/
def answerHandler : Handler Unit Int Int :=
  { service_tag := greeterTag, handler_io := hioIntDefault, kind := none,
    name := "answer", fn := answerFn, arity := 1 }

/-- A user function of arity 2 that always raises a non-terminal error. -/
def boomFn : PyFunc Unit Int Int :=
  { id := 10, py_name := "boom",
    call := fun _ _ => Except.error (PyExc.otherExc "boom") }

/-- The descriptor of `boomFn` as `invoke_handler` consumes it. -/
def boomHandler : Handler Unit Int Int :=
  { service_tag := greeterTag, handler_io := hioIntDefault, kind := none,
    name := "boom", fn := boomFn, arity := 2 }

/-- An anonymous function object: falsy `__name__`, never registered. -/
def anonFn : PyFunc Unit Int Int :=
  { id := 9, py_name := "", call := fun _ _ => Except.ok 0 }

/-- A serializer whose `deserialize` always raises: replacing the input
serializer by this one must not change an arity-1 invocation. -/
def brokenSerde : Serde Int :=
  { cls := SerdeClass.customSerde 2,
    impl := { deserialize := fun _ => Except.error "always fails",
              serialize := fun _ => [] } }

/-- The attribute table before any registration. -/
def emptyStore : HandlerStore Unit Int Int := fun _ => none

/-- `(ctx)` — one declared parameter, nothing annotated. -/
def sigCtxOnly : PySignature := { parameters := [{ name := "ctx" }] }

/-- `(ctx, payload: int) -> int`. -/
def sigCtxInt : PySignature :=
  { parameters := [{ name := "ctx" },
                   { name := "payload", annotation := PyAnnot.plainType "int" }],
    return_annotation := PyAnnot.plainType "int" }

/-- `(ctx, a, b)` — three declared parameters. -/
def sigThreeParams : PySignature :=
  { parameters := [{ name := "ctx" }, { name := "a" }, { name := "b" }] }

/-- `()` — zero declared parameters. -/
def sigZeroParams : PySignature := { parameters := [] }

/-- `(ctx, user: User) -> User` where `User` derives the Pydantic base
model. -/
def sigPydantic : PySignature :=
  { parameters := [{ name := "ctx" },
                   { name := "user", annotation := PyAnnot.pydanticModel "User" }],
    return_annotation := PyAnnot.pydanticModel "User" }

/-- `hioIntDefault` after `extract_io_type_hints` under `sigCtxInt`. -/
def hioIntHinted : HandlerIO Int Int :=
  { hioIntDefault with
      input_type := some { annotation := some (PyAnnot.plainType "int"),
                           is_pydantic := false },
      output_type := some { annotation := some (PyAnnot.plainType "int"),
                            is_pydantic := false } }

/-- `hioIntDefault` after `extract_io_type_hints` under `sigCtxOnly`. -/
def hioCtxHinted : HandlerIO Int Int :=
  { hioIntDefault with
      input_type := some { annotation := some PyAnnot.emptySentinel,
                           is_pydantic := false },
      output_type := some { annotation := some PyAnnot.emptySentinel,
                            is_pydantic := false } }

/-- `hioIntDefault` after `extract_io_type_hints` under `sigPydantic`: both
serializers replaced by the structured-schema one, both hints flagged. -/
def hioPydHinted : HandlerIO Int Int :=
  { hioIntDefault with
      input_serde := PydanticJsonSerde intCodec (PyAnnot.pydanticModel "User"),
      input_type := some { annotation := some (PyAnnot.pydanticModel "User"),
                           is_pydantic := true },
      output_serde := PydanticJsonSerde intCodec (PyAnnot.pydanticModel "User"),
      output_type := some { annotation := some (PyAnnot.pydanticModel "User"),
                            is_pydantic := true } }

/-- The descriptor `make_handler` builds for `doubleFn` under `sigCtxInt`
with no explicit name. -/
def doubleReg : Handler Unit Int Int :=
  { service_tag := greeterTag, handler_io := hioIntHinted, kind := none,
    name := "double", fn := doubleFn, arity := 2 }

/-- The attribute table after registering `doubleFn`. -/
def storeAfterDouble : HandlerStore Unit Int Int :=
  fun i => if i = doubleFn.id then some doubleReg else emptyStore i

/-- The descriptor a second `make_handler` call on the same `doubleFn` builds
under `sigCtxOnly` with the explicit name `"double_v2"`. -/
def doubleRegV2 : Handler Unit Int Int :=
  { service_tag := greeterTag, handler_io := hioCtxHinted, kind := none,
    name := "double_v2", fn := doubleFn, arity := 1 }

/-- The attribute table after the second registration of `doubleFn`. -/
def storeAfterDoubleV2 : HandlerStore Unit Int Int :=
  fun i => if i = doubleFn.id then some doubleRegV2 else storeAfterDouble i

/-- The descriptor `make_handler` builds for `doubleFn` under `sigCtxOnly`
with the explicit name `"explicit"`. -/
def explicitReg : Handler Unit Int Int :=
  { service_tag := greeterTag, handler_io := hioCtxHinted, kind := none,
    name := "explicit", fn := doubleFn, arity := 1 }

/-- The attribute table after registering `doubleFn` under `"explicit"`. -/
def storeAfterExplicit : HandlerStore Unit Int Int :=
  fun i => if i = doubleFn.id then some explicitReg else emptyStore i

/-- The descriptor `make_handler` builds for `answerFn` under `sigCtxOnly`
with no explicit name. -/
def answerReg : Handler Unit Int Int :=
  { service_tag := greeterTag, handler_io := hioCtxHinted, kind := none,
    name := "answer", fn := answerFn, arity := 1 }

/-- The attribute table after registering `answerFn`. -/
def storeAfterAnswer : HandlerStore Unit Int Int :=
  fun i => if i = answerFn.id then some answerReg else emptyStore i

/-! ### Theorems about `take_async_result` (vm.py) -/

/-- C1 counterexample: the engine resolving the handle with the empty bytes
value `b""` is classified as `NotReady` by `take_async_result` (the
`if not result:` truthiness test fires on empty bytes), not as a
bytes-success carrying the empty bytes value, contradicting the claim's
"bytes-success ... for every resolved bytes value (including the empty bytes
value)". -/
theorem take_async_result_empty_bytes_counterexample :
    take_async_result (PyVMResult.pyBytes []) = Except.ok AsyncResult.notReady ∧
    take_async_result (PyVMResult.pyBytes []) ≠ Except.ok (AsyncResult.bytesSuccess []) :=
  ⟨rfl, fun h => by
    rw [show take_async_result (PyVMResult.pyBytes []) = Except.ok AsyncResult.notReady from rfl] at h
    injection h with h
    exact AsyncResult.noConfusion h⟩

/-- C1 (amended): `take_async_result` classifies the engine's response as
follows — `NotReady` when the engine has not yet resolved the handle (Python
`None`), empty-success when the engine resolved the handle with no value
(`PyVoid`), bytes-success carrying exactly the resolved bytes value for every
non-empty resolved bytes value — while the empty resolved bytes value is
classified as `NotReady` —, `Failure{code,message}` with the engine-reported
code and message for a terminal failure, and a raised (not returned)
suspension signal when the engine decides the invocation must suspend. -/
theorem take_async_result_classifies :
    (take_async_result PyVMResult.pyNone = Except.ok AsyncResult.notReady) ∧
    (take_async_result PyVMResult.pyVoid = Except.ok AsyncResult.emptySuccess) ∧
    (∀ b : List Nat, b ≠ [] →
       take_async_result (PyVMResult.pyBytes b) = Except.ok (AsyncResult.bytesSuccess b)) ∧
    (take_async_result (PyVMResult.pyBytes []) = Except.ok AsyncResult.notReady) ∧
    (∀ (code : Int) (message : String),
       take_async_result (PyVMResult.pyFailure code message)
         = Except.ok (AsyncResult.failure code message)) ∧
    (take_async_result PyVMResult.pySuspended = Except.error PyExc.suspendedException) := by
  refine ⟨rfl, rfl, ?_, rfl, fun _ _ => rfl, rfl⟩
  intro b hb
  cases b with
  | nil => exact absurd rfl hb
  | cons x xs => rfl

/-- C1 witness: the classification theorem applied to the concrete non-empty
resolved bytes value `[5]`. -/
theorem take_async_result_classifies_witness :
    take_async_result (PyVMResult.pyBytes [5]) = Except.ok (AsyncResult.bytesSuccess [5]) :=
  take_async_result_classifies.2.2.1 [5] (by decide)

/-- C9 counterexample: an unclassifiable engine response that is falsy to
Python (for instance the integer `0`, whose `str` is `"0"`) is returned as
`NotReady` by the leading `if not result:` test — no error is raised — so an
unknown engine result shape is not always treated as fatal, contradicting the
claim's "for every poll response ... it raises a fatal error rather than
returning NotReady". -/
theorem take_async_result_falsy_unknown_counterexample :
    take_async_result (PyVMResult.pyUnknown true "0") = Except.ok AsyncResult.notReady ∧
    ∀ e : PyExc, take_async_result (PyVMResult.pyUnknown true "0") ≠ Except.error e :=
  ⟨rfl, fun _ h => Except.noConfusion h⟩

/-- C9 (amended): an engine poll response that `take_async_result` cannot
classify raises the fatal `ValueError("Unknown result type: ...")` whenever
the response object is truthy; an unclassifiable response that is falsy to
Python is instead returned as `NotReady` by the leading truthiness test (and
those are the only two behaviours for unknown shapes — no classified outcome
is ever produced for them). -/
theorem take_async_result_unknown_shape :
    (∀ shownText : String,
       take_async_result (PyVMResult.pyUnknown false shownText)
         = Except.error (PyExc.valueError ("Unknown result type: " ++ shownText))) ∧
    (∀ shownText : String,
       take_async_result (PyVMResult.pyUnknown true shownText)
         = Except.ok AsyncResult.notReady) :=
  ⟨fun _ => rfl, fun _ => rfl⟩

/-! ### Theorems about registration (handler.py) -/

/-- Helper: what a successful `make_handler` call guarantees — the resolved
name was non-empty, the signature had parameters, `extract_io_type_hints`
succeeded, and the returned descriptor and updated store are exactly the ones
the source builds. -/
theorem make_handler_ok_elim {C I O : Type} {codecIn : PyAnnot → SerdeImpl I}
    {codecOut : PyAnnot → SerdeImpl O} {tag : ServiceTag} {hio : HandlerIO I O}
    {nm kd : Option String} {f : PyFunc C I O} {sig : PySignature}
    {store : HandlerStore C I O} {h : Handler C I O} {store' : HandlerStore C I O}
    (hmk : make_handler codecIn codecOut tag hio nm kd f sig store = Except.ok (h, store')) :
    resolve_handler_name nm f.py_name ≠ "" ∧
    sig.parameters.length ≠ 0 ∧
    ∃ hio2, extract_io_type_hints codecIn codecOut hio sig = Except.ok hio2 ∧
      h = { service_tag := tag, handler_io := hio2, kind := kd,
            name := resolve_handler_name nm f.py_name, fn := f,
            arity := sig.parameters.length } ∧
      store' = fun i => if i = f.id then some h else store i := by
  unfold make_handler at hmk
  split at hmk
  · exact Except.noConfusion hmk
  next h1 =>
  split at hmk
  · exact Except.noConfusion hmk
  next h2 =>
  split at hmk
  · exact Except.noConfusion hmk
  next hio2 hex =>
  simp only [Except.ok.injEq, Prod.mk.injEq] at hmk
  refine ⟨h1, h2, hio2, hex, hmk.1.symm, ?_⟩
  rw [← hmk.2, hmk.1]

/-- C6 counterexample: a signature with three declared parameters registers
successfully and yields a descriptor whose arity is 3 — `make_handler` only
rejects zero parameters and otherwise stores `len(signature.parameters)`
unchecked, so the claim's "this arity is always 1 or 2" fails. -/
theorem make_handler_arity_three_counterexample :
    sigThreeParams.parameters.length = 3 ∧
    Except.map (fun p => p.1.arity)
      (make_handler intCodec intCodec greeterTag hioIntDefault none none doubleFn
        sigThreeParams emptyStore) = Except.ok 3 :=
  ⟨rfl, rfl⟩

/-- C6 (amended): for every successful registration, `make_handler` sets the
descriptor's arity to the number of declared parameters of the supplied
signature, and this arity is at least 1 (zero-parameter signatures are
rejected; parameter counts above 2 are not rejected).  The arity is a plain
field of the returned descriptor, computed once from the signature. -/
theorem make_handler_arity {C I O : Type} {ci : PyAnnot → SerdeImpl I}
    {co : PyAnnot → SerdeImpl O} {tag : ServiceTag} {hio : HandlerIO I O}
    {nm kd : Option String} {f : PyFunc C I O} {sig : PySignature}
    {store : HandlerStore C I O} {h : Handler C I O} {store' : HandlerStore C I O}
    (hmk : make_handler ci co tag hio nm kd f sig store = Except.ok (h, store')) :
    h.arity = sig.parameters.length ∧ 1 ≤ h.arity := by
  obtain ⟨-, h2, hio2, -, hh, -⟩ := make_handler_ok_elim hmk
  subst hh
  exact ⟨rfl, Nat.pos_of_ne_zero h2⟩

/-- C6 witness: the amended arity theorem applied to the concrete successful
registration of `doubleFn` under the two-parameter signature `sigCtxInt`. -/
theorem make_handler_arity_witness :
    doubleReg.arity = sigCtxInt.parameters.length ∧ 1 ≤ doubleReg.arity :=
  make_handler_arity (show make_handler intCodec intCodec greeterTag hioIntDefault none none
    doubleFn sigCtxInt emptyStore = Except.ok (doubleReg, storeAfterDouble) from rfl)

/-- C8: `make_handler` resolves the descriptor's name so that an explicitly
supplied (non-empty) name always wins; otherwise the name is derived from the
function's own `__name__`; it raises `ValueError` when neither is available
(Python `None` and the empty string are the unavailable cases, both falsy),
and raises `ValueError` when the signature declares zero parameters. -/
theorem make_handler_name_rules {C I O : Type}
    (ci : PyAnnot → SerdeImpl I) (co : PyAnnot → SerdeImpl O)
    (tag : ServiceTag) (hio : HandlerIO I O) (kd : Option String)
    (f : PyFunc C I O) (sig : PySignature) (store : HandlerStore C I O) :
    (∀ (s : String) (h : Handler C I O) (store' : HandlerStore C I O), s ≠ "" →
       make_handler ci co tag hio (some s) kd f sig store = Except.ok (h, store') →
       h.name = s) ∧
    (∀ (nm : Option String) (h : Handler C I O) (store' : HandlerStore C I O),
       (nm = none ∨ nm = some "") →
       make_handler ci co tag hio nm kd f sig store = Except.ok (h, store') →
       h.name = f.py_name) ∧
    (∀ nm : Option String, (nm = none ∨ nm = some "") → f.py_name = "" →
       make_handler ci co tag hio nm kd f sig store
         = Except.error (PyExc.valueError "Handler name must be provided")) ∧
    (∀ nm : Option String, sig.parameters = [] →
       ∃ msg, make_handler ci co tag hio nm kd f sig store
         = Except.error (PyExc.valueError msg)) := by
  refine ⟨?_, ?_, ?_, ?_⟩
  · intro s h store' hs hmk
    obtain ⟨-, -, hio2, -, hh, -⟩ := make_handler_ok_elim hmk
    subst hh
    simp [resolve_handler_name, hs]
  · intro nm h store' hnm hmk
    obtain ⟨-, -, hio2, -, hh, -⟩ := make_handler_ok_elim hmk
    subst hh
    rcases hnm with rfl | rfl <;> simp [resolve_handler_name]
  · intro nm hnm hpy
    rcases hnm with rfl | rfl <;> simp [make_handler, resolve_handler_name, hpy]
  · intro nm hsig
    by_cases hres : resolve_handler_name nm f.py_name = ""
    · exact ⟨"Handler name must be provided", by simp [make_handler, hres]⟩
    · exact ⟨"Handler must have at least one parameter", by simp [make_handler, hres, hsig]⟩

/-- C8 witness: the four name rules at concrete registrations — an explicit
name `"explicit"` wins over `doubleFn`'s own name; `answerFn` registered with
no explicit name gets its `__name__`; an anonymous function with no explicit
name is rejected; a zero-parameter signature is rejected. -/
theorem make_handler_name_rules_witness :
    explicitReg.name = "explicit" ∧
    answerReg.name = answerFn.py_name ∧
    make_handler intCodec intCodec greeterTag hioIntDefault none none anonFn sigCtxOnly emptyStore
      = Except.error (PyExc.valueError "Handler name must be provided") ∧
    ∃ msg, make_handler intCodec intCodec greeterTag hioIntDefault none none doubleFn
      sigZeroParams emptyStore = Except.error (PyExc.valueError msg) := by
  refine ⟨?_, ?_, ?_, ?_⟩
  · exact (make_handler_name_rules intCodec intCodec greeterTag hioIntDefault none doubleFn
      sigCtxOnly emptyStore).1 "explicit" explicitReg storeAfterExplicit (by decide) rfl
  · exact (make_handler_name_rules intCodec intCodec greeterTag hioIntDefault none answerFn
      sigCtxOnly emptyStore).2.1 none answerReg storeAfterAnswer (Or.inl rfl) rfl
  · exact (make_handler_name_rules intCodec intCodec greeterTag hioIntDefault none anonFn
      sigCtxOnly emptyStore).2.2.1 none (Or.inl rfl) rfl
  · exact (make_handler_name_rules intCodec intCodec greeterTag hioIntDefault none doubleFn
      sigZeroParams emptyStore).2.2.2 none rfl

/-- C3: `extract_io_type_hints` (called by `make_handler` on the descriptor's
`HandlerIO`) captures the last declared parameter's annotation as the input
hint and the return annotation as the output hint; when the annotation is a
structured-schema (Pydantic) model it sets the hint's `is_pydantic` flag and
replaces the corresponding serializer by the structured-schema serializer for
that annotation exactly when the serializer held so far is (an instance of)
the default general-purpose one, preserving an explicitly supplied
non-default serializer unchanged; the input decision depends only on the last
parameter's annotation and the input serializer, the output decision only on
the return annotation and the output serializer. -/
theorem extract_io_type_hints_serde_selection {I O : Type}
    (codecIn : PyAnnot → SerdeImpl I) (codecOut : PyAnnot → SerdeImpl O)
    (hio hio2 : HandlerIO I O) (sig : PySignature) (lastP : PyParameter)
    (hlast : sig.parameters.getLast? = some lastP)
    (hex : extract_io_type_hints codecIn codecOut hio sig = Except.ok hio2) :
    (is_pydantic lastP.annotation = true →
       hio2.input_type = some { annotation := some lastP.annotation, is_pydantic := true } ∧
       (hio.input_serde.cls = SerdeClass.generalSerde →
          hio2.input_serde = PydanticJsonSerde codecIn lastP.annotation) ∧
       (hio.input_serde.cls ≠ SerdeClass.generalSerde →
          hio2.input_serde = hio.input_serde)) ∧
    (is_pydantic lastP.annotation = false →
       hio2.input_type = some { annotation := some lastP.annotation, is_pydantic := false } ∧
       hio2.input_serde = hio.input_serde) ∧
    (is_pydantic sig.return_annotation = true →
       hio2.output_type
         = some { annotation := some sig.return_annotation, is_pydantic := true } ∧
       (hio.output_serde.cls = SerdeClass.generalSerde →
          hio2.output_serde = PydanticJsonSerde codecOut sig.return_annotation) ∧
       (hio.output_serde.cls ≠ SerdeClass.generalSerde →
          hio2.output_serde = hio.output_serde)) ∧
    (is_pydantic sig.return_annotation = false →
       hio2.output_type
         = some { annotation := some sig.return_annotation, is_pydantic := false } ∧
       hio2.output_serde = hio.output_serde) := by
  unfold extract_io_type_hints at hex
  rw [hlast] at hex
  by_cases hpi : is_pydantic lastP.annotation <;>
    by_cases hpo : is_pydantic sig.return_annotation <;>
      by_cases hci : hio.input_serde.cls = SerdeClass.generalSerde <;>
        by_cases hco : hio.output_serde.cls = SerdeClass.generalSerde <;>
          simp only [hpi, hpo, hci, hco, if_true, if_false, if_pos, if_neg,
            Except.ok.injEq, Bool.not_eq_true, reduceIte] at hex <;>
          subst hex <;>
          simp [hpi, hpo, hci, hco]

/-- C3 witness: the selection theorem at a concrete registration — a
still-default `HandlerIO` under the Pydantic signature `(ctx, user: User) ->
User` ends with the structured-schema serializer for `User` on both sides and
a flagged input hint. -/
theorem extract_io_type_hints_serde_selection_witness :
    hioPydHinted.input_type
      = some { annotation := some (PyAnnot.pydanticModel "User"), is_pydantic := true } ∧
    hioPydHinted.input_serde = PydanticJsonSerde intCodec (PyAnnot.pydanticModel "User") ∧
    hioPydHinted.output_serde = PydanticJsonSerde intCodec (PyAnnot.pydanticModel "User") := by
  have h := extract_io_type_hints_serde_selection intCodec intCodec hioIntDefault hioPydHinted
    sigPydantic { name := "user", annotation := PyAnnot.pydanticModel "User" } rfl rfl
  exact ⟨(h.1 rfl).1, (h.1 rfl).2.1 rfl, (h.2.2.1 rfl).2.1 rfl⟩

/-- C7: a registration/retrieval round-trip — after a successful
`make_handler` on `f`, `handler_from_callable f` returns exactly the
descriptor `make_handler` returned; on a store that holds nothing for a
function (the store starts empty, `make_handler` is its only writer, and —
third conjunct — registering a different function leaves the entry
untouched), `handler_from_callable` raises `ValueError("Handler not
found")`. -/
theorem handler_from_callable_roundtrip {C I O : Type}
    (ci : PyAnnot → SerdeImpl I) (co : PyAnnot → SerdeImpl O)
    (tag : ServiceTag) (hio : HandlerIO I O) (nm kd : Option String)
    (f g : PyFunc C I O) (sig : PySignature) (store store' : HandlerStore C I O)
    (h : Handler C I O) :
    (make_handler ci co tag hio nm kd f sig store = Except.ok (h, store') →
       handler_from_callable f store' = Except.ok h) ∧
    (store g.id = none →
       handler_from_callable g store = Except.error (PyExc.valueError "Handler not found")) ∧
    (make_handler ci co tag hio nm kd f sig store = Except.ok (h, store') → g.id ≠ f.id →
       store' g.id = store g.id) := by
  refine ⟨?_, ?_, ?_⟩
  · intro hmk
    obtain ⟨-, -, hio2, -, -, hs⟩ := make_handler_ok_elim hmk
    subst hs
    simp [handler_from_callable]
  · intro hnone
    simp [handler_from_callable, hnone]
  · intro hmk hne
    obtain ⟨-, -, hio2, -, -, hs⟩ := make_handler_ok_elim hmk
    subst hs
    simp [hne]

/-- C7 witness: the round-trip at the concrete registration of `doubleFn`,
and the lookup failure plus frame property for the never-registered
`anonFn`. -/
theorem handler_from_callable_roundtrip_witness :
    handler_from_callable doubleFn storeAfterDouble = Except.ok doubleReg ∧
    handler_from_callable anonFn emptyStore
      = Except.error (PyExc.valueError "Handler not found") ∧
    storeAfterDouble anonFn.id = emptyStore anonFn.id := by
  have h := handler_from_callable_roundtrip intCodec intCodec greeterTag hioIntDefault none none
    doubleFn anonFn sigCtxInt emptyStore storeAfterDouble doubleReg
  exact ⟨h.1 rfl, h.2.1 rfl, h.2.2 rfl (by decide)⟩

/-- C10: registering the same function a second time replaces the previously
attached descriptor — after two successful `make_handler` calls on the same
function object, `handler_from_callable` returns the descriptor of the most
recent call, and (when the two descriptors differ) the earlier one is no
longer retrievable. -/
theorem make_handler_rebind {C I O : Type}
    (ci ci' : PyAnnot → SerdeImpl I) (co co' : PyAnnot → SerdeImpl O)
    (tag tag' : ServiceTag) (hio hio' : HandlerIO I O) (nm nm' kd kd' : Option String)
    (f : PyFunc C I O) (sig sig' : PySignature) (store s1 s2 : HandlerStore C I O)
    (d1 d2 : Handler C I O)
    (_hmk1 : make_handler ci co tag hio nm kd f sig store = Except.ok (d1, s1))
    (hmk2 : make_handler ci' co' tag' hio' nm' kd' f sig' s1 = Except.ok (d2, s2)) :
    handler_from_callable f s2 = Except.ok d2 ∧
    (d2 ≠ d1 → handler_from_callable f s2 ≠ Except.ok d1) := by
  obtain ⟨-, -, hio2, -, -, hs⟩ := make_handler_ok_elim hmk2
  subst hs
  constructor
  · simp [handler_from_callable]
  · intro hne hcontra
    simp [handler_from_callable] at hcontra
    exact hne hcontra

/-- C10 witness: `doubleFn` registered twice (second time under the explicit
name `"double_v2"` with a one-parameter signature); retrieval yields the
second descriptor and no longer the first. -/
theorem make_handler_rebind_witness :
    handler_from_callable doubleFn storeAfterDoubleV2 = Except.ok doubleRegV2 ∧
    handler_from_callable doubleFn storeAfterDoubleV2 ≠ Except.ok doubleReg := by
  have h := make_handler_rebind intCodec intCodec intCodec intCodec greeterTag greeterTag
    hioIntDefault hioIntDefault none (some "double_v2") none none doubleFn sigCtxInt sigCtxOnly
    emptyStore storeAfterDouble storeAfterDoubleV2 doubleReg doubleRegV2 rfl rfl
  refine ⟨h.1, h.2 ?_⟩
  intro hcontra
  exact absurd (congrArg Handler.name hcontra) (by decide)

/-! ### Theorems about `invoke_handler` (handler.py) -/

/-- C2: for an arity-2 handler, a `deserialize` failure on the input bytes
makes `invoke_handler` raise a `TerminalError` whose message references the
underlying decoding error (`"Unable to parse an input argument. " ++ str(e)`)
— never the raw exception and never any other error kind — and the user
function is not called (the outcome is the same whatever function the
descriptor holds); whereas an error raised by the user function itself
propagates out of `invoke_handler` unchanged. -/
theorem invoke_handler_error_policy {C I O : Type} (handler : Handler C I O) (ctx : C)
    (in_buffer : List Nat) (h2 : handler.arity = 2) :
    (∀ e : String,
       handler.handler_io.input_serde.impl.deserialize in_buffer = Except.error e →
       invoke_handler handler ctx in_buffer
         = Except.error (PyExc.terminalError ("Unable to parse an input argument. " ++ e)) ∧
       ∀ g : PyFunc C I O,
         invoke_handler { handler with fn := g } ctx in_buffer
           = invoke_handler handler ctx in_buffer) ∧
    (∀ (v : I) (exc : PyExc),
       handler.handler_io.input_serde.impl.deserialize in_buffer = Except.ok v →
       handler.fn.call ctx (some v) = Except.error exc →
       invoke_handler handler ctx in_buffer = Except.error exc) := by
  constructor
  · intro e hdes
    constructor
    · simp [invoke_handler, h2, hdes]
    · intro g
      simp [invoke_handler, h2, hdes]
  · intro v exc hdes hcall
    simp [invoke_handler, h2, hdes, hcall]

/-- C2 witness: the error policy at concrete invocations — malformed input
bytes `[1, 2]` for `doubleHandler` yield the wrapped terminal failure, and
`boomHandler`'s own error propagates unchanged. -/
theorem invoke_handler_error_policy_witness :
    invoke_handler doubleHandler () [1, 2]
      = Except.error (PyExc.terminalError ("Unable to parse an input argument. "
          ++ "invalid input")) ∧
    invoke_handler boomHandler () [5] = Except.error (PyExc.otherExc "boom") := by
  have h1 := invoke_handler_error_policy doubleHandler () [1, 2] rfl
  have h2 := invoke_handler_error_policy boomHandler () [5] rfl
  exact ⟨(h1.1 "invalid input" rfl).1, h2.2 5 (PyExc.otherExc "boom") rfl rfl⟩

/-- C4: for an arity-2 handler whose input serializer deserializes the input
bytes to `v`, `invoke_handler` returns exactly the bytes the output
serializer produces on the user function's result at `(ctx, v)` (and the
function's error, if any, unchanged). -/
theorem invoke_handler_returns_serialized {C I O : Type} (handler : Handler C I O) (ctx : C)
    (in_buffer : List Nat) (v : I) (h2 : handler.arity = 2)
    (hdes : handler.handler_io.input_serde.impl.deserialize in_buffer = Except.ok v) :
    invoke_handler handler ctx in_buffer
      = Except.map (fun out => handler.handler_io.output_serde.impl.serialize out)
          (handler.fn.call ctx (some v)) := by
  simp only [invoke_handler, h2, hdes, if_true]
  cases handler.fn.call ctx (some v) <;> rfl

/-- C4 witness: the doubling handler on input bytes decoding to 5 returns
output bytes decoding to 10. -/
theorem invoke_handler_returns_serialized_witness :
    invoke_handler doubleHandler () [5] = Except.ok [10] :=
  (invoke_handler_returns_serialized doubleHandler () [5] 5 rfl rfl).trans rfl

/-- C5: for an arity-1 handler and any input bytes, `invoke_handler` calls
the user function with the context alone, its result does not depend on the
input bytes, and the input serializer is never invoked (replacing it by any
other serializer leaves the outcome unchanged). -/
theorem invoke_handler_arity_one {C I O : Type} (handler : Handler C I O) (ctx : C)
    (h1 : handler.arity = 1) :
    (∀ in_buffer : List Nat,
       invoke_handler handler ctx in_buffer
         = Except.map (fun out => handler.handler_io.output_serde.impl.serialize out)
             (handler.fn.call ctx none)) ∧
    (∀ b b' : List Nat, invoke_handler handler ctx b = invoke_handler handler ctx b') ∧
    (∀ (in_buffer : List Nat) (s : Serde I),
       invoke_handler
           { handler with handler_io := { handler.handler_io with input_serde := s } }
           ctx in_buffer
         = invoke_handler handler ctx in_buffer) := by
  have harzero : handler.arity ≠ 2 := by rw [h1]; decide
  refine ⟨?_, ?_, ?_⟩
  · intro in_buffer
    simp only [invoke_handler, if_neg harzero]
    cases handler.fn.call ctx none <;> rfl
  · intro b b'
    simp only [invoke_handler, if_neg harzero]
  · intro in_buffer s
    simp only [invoke_handler, if_neg harzero]

/-- C5 witness: the arity-1 `answerHandler` gives the same result on two
different input buffers, is unaffected by an always-failing input serializer,
and returns its serialized result. -/
theorem invoke_handler_arity_one_witness :
    invoke_handler answerHandler () [9, 9] = invoke_handler answerHandler () [1] ∧
    invoke_handler
        { answerHandler with
            handler_io := { answerHandler.handler_io with input_serde := brokenSerde } }
        () [9, 9]
      = invoke_handler answerHandler () [9, 9] ∧
    invoke_handler answerHandler () [9, 9] = Except.ok [42] := by
  have h := invoke_handler_arity_one answerHandler () rfl
  exact ⟨h.2.1 [9, 9] [1], h.2.2 [9, 9] brokenSerde, (h.1 [9, 9]).trans rfl⟩

end RestateSDK
